import Mathlib

/-!
Shallow embedding of `bevy_polyline`'s `src/lib.rs` (the two systems
`poly_line_draw_render_pipelines_system` and
`poly_line_resource_provider_system`) together with the data the claims
need.  Machine integers are modelled as `Nat` with explicit `% 2^w`
where Rust wraps; 32-bit floats are carried as opaque bit patterns
(`Nat`), since the code only serialises them and never computes with
them.  GPU side effects are modelled as explicit event/command traces.
-/

namespace BevyPolyline

/-- A `bevy::math::Vec3`: three `f32`s carried as 32-bit patterns. -/
structure Vec3 where
  x : Nat
  y : Nat
  z : Nat
deriving DecidableEq, Repr

/-- Little-endian byte serialisation of one 32-bit word. -/
def word32Bytes (w : Nat) : List Nat :=
  [w % 256, w / 2 ^ 8 % 256, w / 2 ^ 16 % 256, w / 2 ^ 24 % 256]

/-- Byte serialisation of one `Vec3` (12 bytes), as in bevy's `Bytes` impl. -/
def Vec3.asBytes (v : Vec3) : List Nat :=
  word32Bytes v.x ++ word32Bytes v.y ++ word32Bytes v.z

/-- `poly_line.vertices.as_bytes()`: the contiguous serialisation of the list. -/
def vecListBytes (vs : List Vec3) : List Nat :=
  (vs.map Vec3.asBytes).flatten

/-- `vertices.byte_len()`: bevy's `Bytes` impl for `Vec<T: Byteable>` returns
`self.len() * size_of::<T>()`, and `size_of::<Vec3>() = 12`. -/
def byteLen (vs : List Vec3) : Nat :=
  vs.length * 12

/-- The `PolyLine` component (src/lib.rs, `pub struct PolyLine`). -/
structure PolyLine where
  vertices : List Vec3
deriving DecidableEq, Repr

/-- `bevy::render::pipeline::VertexFormat` (only the variant the code uses). -/
inductive VertexFormat where
  | Float32x3
deriving DecidableEq, Repr

/-- `bevy::render::pipeline::VertexAttribute`. -/
structure VertexAttribute where
  name : String
  format : VertexFormat
  offset : Nat
  shader_location : Nat
deriving DecidableEq, Repr

/-- `bevy::render::pipeline::InputStepMode`. -/
inductive InputStepMode where
  | Vertex
  | Instance
deriving DecidableEq, Repr

/-- `bevy::render::pipeline::VertexBufferLayout`. -/
structure VertexBufferLayout where
  name : String
  stride : Nat
  step_mode : InputStepMode
  attributes : List VertexAttribute
deriving DecidableEq, Repr

/-- The fields of `PipelineSpecialization` that the code reads or writes.
`dynamic_bindings` is a `HashSet<String>`, modelled as a duplicate-free
insertion list (`List.insert` inserts only when absent). -/
structure PipelineSpecialization where
  sample_count : Nat
  vertex_buffer_layout : VertexBufferLayout
  dynamic_bindings : List String
deriving DecidableEq, Repr

/-- The view of `RenderResourceBindings` the code uses:
`vertex_attribute_buffer` (an `Option<BufferId>`),
`iter_dynamic_bindings()` (as `dynamic_binding_names`),
`dynamic_bindings_generation()` (as a counter field), and
`iter_assets()` (as the list of untyped asset handles). -/
structure RenderResourceBindings where
  vertex_attribute_buffer : Option Nat
  dynamic_binding_names : List String
  dynamic_bindings_generation : Nat
  asset_handles : List Nat
deriving DecidableEq, Repr

/-- One element of `RenderPipelines::pipelines` (bevy's `RenderPipeline`):
a pipeline handle, its specialization, and the cached generation. -/
structure RenderPipeline where
  pipeline : Nat
  specialization : PipelineSpecialization
  dynamic_bindings_generation : Nat
deriving DecidableEq, Repr

/-- The `RenderPipelines` component. -/
structure RenderPipelines where
  pipelines : List RenderPipeline
  bindings : RenderResourceBindings
deriving DecidableEq, Repr

/-- A render command recorded into an entity's `Draw` component by the
draw-submission system.  `draw a b c d` is `draw.draw(a..b, c..d)`. -/
inductive DrawCommand where
  | set_pipeline (pipeline : Nat) (specialization : PipelineSpecialization)
  | set_bind_groups
  | set_vertex_buffers (buffer : Option Nat)
  | draw (vertexStart vertexEnd instanceStart instanceEnd : Nat)
deriving DecidableEq, Repr

/-- One entity as queried by the two systems: its `Draw` command list, its
`RenderPipelines`, its `PolyLine` and its `Visible::is_visible` flag. -/
structure Record where
  drawCommands : List DrawCommand
  render_pipelines : RenderPipelines
  poly_line : PolyLine
  visible : Bool
deriving DecidableEq, Repr

/-- The constant vertex buffer layout assigned at src/lib.rs:96-115. -/
def polyLineVertexBufferLayout : VertexBufferLayout :=
  { name := "PolyLine"
    stride := 12
    step_mode := InputStepMode.Instance
    attributes := [
      { name := "Instance_Point0", format := VertexFormat.Float32x3,
        offset := 0, shader_location := 0 },
      { name := "Instance_Point1", format := VertexFormat.Float32x3,
        offset := 12, shader_location := 1 }] }

/-- `iter.collect::<HashSet<String>>()`: fold the names into a fresh set. -/
def hashSetCollect (names : List String) : List String :=
  names.foldl (fun s n => s.insert n) []

/-- The inner loop at src/lib.rs:127-139: for every asset handle in the
record's bindings, if `asset_render_resource_bindings` has bindings for it,
insert each of that set's dynamic binding names. -/
def mergeAssetBindings (assets : List (Nat × List String)) (handles : List Nat)
    (s : List String) : List String :=
  handles.foldl (fun s h =>
    match assets.lookup h with
    | some names => names.foldl (fun s n => s.insert n) s
    | none => s) s

/-- The body of the first per-pipeline loop (src/lib.rs:91-141): overwrite
`sample_count` and `vertex_buffer_layout` unconditionally, then recompute
`dynamic_bindings` and the cached generation exactly when the cached
generation differs from `bindings.dynamic_bindings_generation()`. -/
def specializePipeline (msaaSamples : Nat) (bindings : RenderResourceBindings)
    (assets : List (Nat × List String)) (rp : RenderPipeline) : RenderPipeline :=
  let rp := { rp with specialization :=
    { rp.specialization with
        sample_count := msaaSamples
        vertex_buffer_layout := polyLineVertexBufferLayout } }
  if rp.dynamic_bindings_generation ≠ bindings.dynamic_bindings_generation then
    let rp := { rp with specialization :=
      { rp.specialization with
          dynamic_bindings := hashSetCollect bindings.dynamic_binding_names } }
    let rp := { rp with
      dynamic_bindings_generation := bindings.dynamic_bindings_generation }
    { rp with specialization :=
      { rp.specialization with
          dynamic_bindings :=
            mergeAssetBindings assets bindings.asset_handles
              rp.specialization.dynamic_bindings } }
  else
    rp

/-- `(poly_line.vertices.len() - 1) as u32` at src/lib.rs:165: `usize`
subtraction (wrapping modulo `2^64` in release builds; debug builds panic on
`n = 0`) followed by truncation to `u32`. -/
def instanceCount (n : Nat) : Nat :=
  ((n + (2 ^ 64 - 1)) % 2 ^ 64) % 2 ^ 32

/-- Outcome oracles for the three fallible `DrawContext` operations the
draw-submission system calls (their success depends on ambient renderer state
the core does not own); each is a function of the call's arguments. -/
structure DrawEnv where
  setPipelineOk : Nat → PipelineSpecialization → Bool
  setBindGroupsOk : RenderResourceBindings → RenderResourceBindings → Bool
  setVertexBuffersOk : Option Nat → Bool

/-- The second per-pipeline loop (src/lib.rs:144-166): set the pipeline, the
bind groups (from the record's and the global bindings) and the vertex
buffers (from the record's bindings only), each followed by `.unwrap()`
(so a failure panics, modelled as `Except.error`), then record
`draw.draw(0..6, 0..(vertices.len() - 1) as u32)`. -/
def drawLoop (env : DrawEnv) (bindings globalBindings : RenderResourceBindings)
    (poly_line : PolyLine) : List RenderPipeline → List DrawCommand →
    Except Unit (List DrawCommand)
  | [], cmds => Except.ok cmds
  | rp :: rest, cmds =>
    if env.setPipelineOk rp.pipeline rp.specialization then
      let cmds := cmds ++ [DrawCommand.set_pipeline rp.pipeline rp.specialization]
      if env.setBindGroupsOk bindings globalBindings then
        let cmds := cmds ++ [DrawCommand.set_bind_groups]
        if env.setVertexBuffersOk bindings.vertex_attribute_buffer then
          let cmds := cmds ++
            [DrawCommand.set_vertex_buffers bindings.vertex_attribute_buffer]
          drawLoop env bindings globalBindings poly_line rest
            (cmds ++ [DrawCommand.draw 0 6 0 (instanceCount poly_line.vertices.length)])
        else
          Except.error ()
      else
        Except.error ()
    else
      Except.error ()

/-- The per-record body of the draw-submission system (src/lib.rs:84-167):
skip the record when `!visible.is_visible`; otherwise run the
specialization pass over every pipeline instance, then the draw loop. -/
def processRecord (env : DrawEnv) (msaaSamples : Nat)
    (assets : List (Nat × List String)) (globalBindings : RenderResourceBindings)
    (rec : Record) : Except Unit Record :=
  if rec.visible = false then
    Except.ok rec
  else
    let pipelines := rec.render_pipelines.pipelines.map
      (specializePipeline msaaSamples rec.render_pipelines.bindings assets)
    let rp := { rec.render_pipelines with pipelines := pipelines }
    match drawLoop env rp.bindings globalBindings rec.poly_line pipelines
        rec.drawCommands with
    | Except.ok cmds =>
      Except.ok { rec with render_pipelines := rp, drawCommands := cmds }
    | Except.error e => Except.error e

/-- `poly_line_draw_render_pipelines_system` over its whole query: each
record in turn; a panic (`.unwrap()` on a failed operation) aborts the
entire system run. -/
def poly_line_draw_render_pipelines_system (env : DrawEnv) (msaaSamples : Nat)
    (assets : List (Nat × List String)) (globalBindings : RenderResourceBindings) :
    List Record → Except Unit (List Record)
  | [] => Except.ok []
  | rec :: rest =>
    match processRecord env msaaSamples assets globalBindings rec with
    | Except.ok rec =>
      match poly_line_draw_render_pipelines_system env msaaSamples assets
          globalBindings rest with
      | Except.ok rest => Except.ok (rec :: rest)
      | Except.error e => Except.error e
    | Except.error e => Except.error e

/-- `wgpu` buffer-usage bits: `BufferUsage::VERTEX`. -/
def BufferUsageVERTEX : Nat := 32

/-- `wgpu` buffer-usage bits: `BufferUsage::COPY_DST`. -/
def BufferUsageCOPYDST : Nat := 8

/-- `bevy::render::renderer::BufferInfo` as the provider system fills it. -/
structure BufferInfo where
  size : Nat
  buffer_usage : Nat
  mapped_at_creation : Bool
deriving DecidableEq, Repr

/-- One call into the `RenderResourceContext` made by the provider system. -/
inductive ResourceEvent where
  | remove_buffer (id : Nat)
  | create_buffer_with_data (info : BufferInfo) (data : List Nat) (id : Nat)
deriving DecidableEq, Repr

/-- The `RenderResourceContext` as the provider system sees it: a source of
fresh buffer ids and the recorded trace of calls made so far. -/
structure ProvideState where
  next_buffer_id : Nat
  events : List ResourceEvent
deriving DecidableEq, Repr

/-- The per-record body of `poly_line_resource_provider_system`
(src/lib.rs:177-196): remove the previous buffer if one is present, create a
new buffer of `vertices.byte_len()` bytes uploaded with `as_bytes()`, and
store the returned id into `bindings.vertex_attribute_buffer`. -/
def provideRecord (s : ProvideState) (rec : Record) : ProvideState × Record :=
  let events := s.events ++
    (match rec.render_pipelines.bindings.vertex_attribute_buffer with
     | some buffer_id => [ResourceEvent.remove_buffer buffer_id]
     | none => [])
  let buffer_id := s.next_buffer_id
  let events := events ++
    [ResourceEvent.create_buffer_with_data
      { size := byteLen rec.poly_line.vertices
        buffer_usage := BufferUsageVERTEX ||| BufferUsageCOPYDST
        mapped_at_creation := false }
      (vecListBytes rec.poly_line.vertices) buffer_id]
  ({ next_buffer_id := buffer_id + 1, events := events },
   { rec with render_pipelines :=
      { rec.render_pipelines with bindings :=
        { rec.render_pipelines.bindings with
            vertex_attribute_buffer := some buffer_id } } })

/-- `poly_line_resource_provider_system` over its whole query (the records
whose `PolyLine` changed this frame), in order. -/
def poly_line_resource_provider_system (s : ProvideState) :
    List Record → ProvideState × List Record
  | [] => (s, [])
  | rec :: rest =>
    let (s, rec) := provideRecord s rec
    let (s, rest) := poly_line_resource_provider_system s rest
    (s, rec :: rest)

/-- Is a command the final `draw.draw(..)` call? -/
def isDraw : DrawCommand → Bool
  | DrawCommand.draw _ _ _ _ => true
  | _ => false

/-- The draw calls recorded for a record by a (non-panicking) system run. -/
def draws : Except Unit Record → List DrawCommand
  | Except.ok r => r.drawCommands.filter isDraw
  | Except.error _ => []

/-- The four commands one iteration of the draw loop records when every
operation succeeds. -/
def pipelineCommands (buf : Option Nat) (n : Nat) (rp : RenderPipeline) :
    List DrawCommand :=
  [DrawCommand.set_pipeline rp.pipeline rp.specialization,
   DrawCommand.set_bind_groups,
   DrawCommand.set_vertex_buffers buf,
   DrawCommand.draw 0 6 0 n]

/- Concrete fixtures used by witnesses and counterexamples. -/

/-- The origin point. -/
def vZero : Vec3 := { x := 0, y := 0, z := 0 }

/-- A blank specialization (as on a freshly constructed pipeline instance). -/
def spec0 : PipelineSpecialization :=
  { sample_count := 0
    vertex_buffer_layout :=
      { name := "", stride := 0, step_mode := InputStepMode.Vertex, attributes := [] }
    dynamic_bindings := [] }

/-- A pipeline instance with handle 1 and cached generation 0. -/
def rp0 : RenderPipeline :=
  { pipeline := 1, specialization := spec0, dynamic_bindings_generation := 0 }

/-- Record bindings with a given buffer slot and nothing else bound. -/
def bindings0 (buf : Option Nat) : RenderResourceBindings :=
  { vertex_attribute_buffer := buf
    dynamic_binding_names := []
    dynamic_bindings_generation := 0
    asset_handles := [] }

/-- Empty global `RenderResourceBindings`. -/
def gb0 : RenderResourceBindings := bindings0 none

/-- A record with one pipeline instance, a given buffer slot, given points and
a given visibility flag, with an empty `Draw` command list. -/
def mkRec (buf : Option Nat) (pts : List Vec3) (vis : Bool) : Record :=
  { drawCommands := []
    render_pipelines := { pipelines := [rp0], bindings := bindings0 buf }
    poly_line := { vertices := pts }
    visible := vis }

/-- Environment in which every binding/pipeline operation succeeds. -/
def envAllOk : DrawEnv :=
  { setPipelineOk := fun _ _ => true
    setBindGroupsOk := fun _ _ => true
    setVertexBuffersOk := fun _ => true }

/-- Environment in which `set_pipeline` fails (and the rest would succeed). -/
def envPipelineFail : DrawEnv :=
  { setPipelineOk := fun _ _ => false
    setBindGroupsOk := fun _ _ => true
    setVertexBuffersOk := fun _ => true }

/-- A visible record whose point list is empty (the `PolyLineBundle` default). -/
def recEmptyPts : Record := mkRec (some 7) [] true

/-- A visible record with two points. -/
def recTwoPts : Record := mkRec (some 7) [vZero, { x := 1, y := 0, z := 0 }] true

/-- A visible record with three points. -/
def recThreePts : Record :=
  mkRec (some 7) [vZero, { x := 1, y := 0, z := 0 }, { x := 2, y := 0, z := 0 }] true

/-- A visible record that holds no GPU buffer. -/
def recNoBuf : Record := mkRec none [vZero, { x := 1, y := 0, z := 0 }] true

/-- A visible record with `2^32 + 1` points. -/
def recBig : Record := mkRec (some 7) (List.replicate (2 ^ 32 + 1) vZero) true

/-- An invisible record (with a live buffer and two points). -/
def recInvisible : Record := mkRec (some 9) [vZero, vZero] false

/-- Record bindings carrying two dynamic binding names, generation 5 and one
asset handle. -/
def bindingsC4 : RenderResourceBindings :=
  { vertex_attribute_buffer := some 3
    dynamic_binding_names := ["CameraViewProj", "Transform"]
    dynamic_bindings_generation := 5
    asset_handles := [11] }

/-- Asset-keyed binding sets: handle 11 carries one dynamic binding name. -/
def assetsC4 : List (Nat × List String) := [(11, ["AssetBinding"])]

/-- A pipeline instance whose cached generation equals `bindingsC4`'s. -/
def rpGenEq : RenderPipeline :=
  { pipeline := 1, specialization := spec0, dynamic_bindings_generation := 5 }

/- Helper lemmas shared by the claim theorems. -/

theorem mem_foldl_insert (l init : List String) (x : String) :
    x ∈ l.foldl (fun s n => s.insert n) init ↔ x ∈ init ∨ x ∈ l := by
  induction l generalizing init with
  | nil => simp
  | cons a t ih =>
    simp only [List.foldl_cons, ih, List.mem_insert_iff, List.mem_cons]
    tauto

theorem mem_hashSetCollect (names : List String) (x : String) :
    x ∈ hashSetCollect names ↔ x ∈ names := by
  simp [hashSetCollect, mem_foldl_insert]

theorem mem_mergeAssetBindings_of_mem (assets : List (Nat × List String))
    (handles : List Nat) (s : List String) (x : String) (h : x ∈ s) :
    x ∈ mergeAssetBindings assets handles s := by
  induction handles generalizing s with
  | nil => simpa [mergeAssetBindings] using h
  | cons a t ih =>
    simp only [mergeAssetBindings, List.foldl_cons] at ih ⊢
    apply ih
    cases hl : assets.lookup a with
    | none => simpa [hl] using h
    | some names => simp [hl, mem_foldl_insert, h]

theorem mem_mergeAssetBindings_of_lookup (assets : List (Nat × List String))
    (handles : List Nat) (s : List String) (a : Nat) (names : List String)
    (x : String) (ha : a ∈ handles) (hl : assets.lookup a = some names)
    (hx : x ∈ names) : x ∈ mergeAssetBindings assets handles s := by
  induction handles generalizing s with
  | nil => cases ha
  | cons b t ih =>
    simp only [mergeAssetBindings, List.foldl_cons] at ih ⊢
    rcases List.mem_cons.mp ha with hba | hat
    · subst hba
      have hmem : x ∈ names.foldl (fun s n => s.insert n) s :=
        (mem_foldl_insert names s x).mpr (Or.inr hx)
      have := mem_mergeAssetBindings_of_mem assets t
        (names.foldl (fun s n => s.insert n) s) x hmem
      simpa [mergeAssetBindings, hl] using this
    · exact ih _ hat

theorem asBytes_length (v : Vec3) : v.asBytes.length = 12 := by
  simp [Vec3.asBytes, word32Bytes]

theorem vecListBytes_length (vs : List Vec3) :
    (vecListBytes vs).length = byteLen vs := by
  induction vs with
  | nil => rfl
  | cons v t ih =>
    simp only [vecListBytes, List.map_cons, List.flatten_cons,
      List.length_append, byteLen, List.length_cons] at ih ⊢
    rw [asBytes_length, ih]
    ring

theorem instanceCount_sub_one (n : Nat) (h1 : 1 ≤ n) (h2 : n ≤ 2 ^ 32) :
    instanceCount n = n - 1 := by
  have h64 : (2 : Nat) ^ 64 = 18446744073709551616 := by norm_num
  have h32 : (2 : Nat) ^ 32 = 4294967296 := by norm_num
  unfold instanceCount
  rw [h64, h32] at *
  omega

theorem drawLoop_allOk (env : DrawEnv)
    (hp : ∀ p s, env.setPipelineOk p s = true)
    (hb : ∀ b g, env.setBindGroupsOk b g = true)
    (hv : ∀ o, env.setVertexBuffersOk o = true)
    (bindings globalBindings : RenderResourceBindings) (pl : PolyLine)
    (ps : List RenderPipeline) (cmds : List DrawCommand) :
    drawLoop env bindings globalBindings pl ps cmds =
      Except.ok (cmds ++
        (ps.map (pipelineCommands bindings.vertex_attribute_buffer
          (instanceCount pl.vertices.length))).flatten) := by
  induction ps generalizing cmds with
  | nil => simp [drawLoop]
  | cons rp t ih =>
    simp [drawLoop, hp, hb, hv, ih, pipelineCommands]

theorem processRecord_visible_allOk (env : DrawEnv) (msaaSamples : Nat)
    (assets : List (Nat × List String)) (globalBindings : RenderResourceBindings)
    (rec : Record) (hvis : rec.visible = true)
    (hp : ∀ p s, env.setPipelineOk p s = true)
    (hb : ∀ b g, env.setBindGroupsOk b g = true)
    (hv : ∀ o, env.setVertexBuffersOk o = true) :
    processRecord env msaaSamples assets globalBindings rec =
      Except.ok { rec with
        render_pipelines := { rec.render_pipelines with
          pipelines := rec.render_pipelines.pipelines.map
            (specializePipeline msaaSamples rec.render_pipelines.bindings assets) }
        drawCommands := rec.drawCommands ++
          ((rec.render_pipelines.pipelines.map
              (specializePipeline msaaSamples rec.render_pipelines.bindings assets)).map
            (pipelineCommands rec.render_pipelines.bindings.vertex_attribute_buffer
              (instanceCount rec.poly_line.vertices.length))).flatten } := by
  simp [processRecord, hvis, drawLoop_allOk env hp hb hv]

theorem filter_isDraw_pipelineCommands (buf : Option Nat) (n : Nat)
    (ps : List RenderPipeline) :
    ((ps.map (pipelineCommands buf n)).flatten).filter isDraw =
      ps.map (fun _ => DrawCommand.draw 0 6 0 n) := by
  induction ps with
  | nil => rfl
  | cons rp t ih =>
    simp only [List.map_cons, List.flatten_cons, List.filter_append, ih,
      pipelineCommands]
    simp [isDraw]

theorem provider_system_length (s : ProvideState) (recs : List Record) :
    ((poly_line_resource_provider_system s recs).2).length = recs.length := by
  induction recs generalizing s with
  | nil => rfl
  | cons rec rest ih =>
    simp [poly_line_resource_provider_system, ih]

/-- Claim C1: the spec states the instance count passed to the draw call is
`max(points.len() - 1, 0)`, a total computation guarded against the empty
list, so a 0- or 1-point list yields 0 instances.  The code at
src/lib.rs:165 computes `(poly_line.vertices.len() - 1) as u32` with no
guard: on the empty point list (the `PolyLineBundle` default) the `usize`
subtraction underflows, yielding 4294967295 instances in release builds
(debug builds panic), and the issued draw call has nonzero instance count. -/
theorem C1_empty_list_instance_count_underflows :
    instanceCount 0 = 4294967295 ∧
    recEmptyPts.poly_line.vertices.length = 0 ∧
    draws (processRecord envAllOk 4 [] gb0 recEmptyPts) =
      [DrawCommand.draw 0 6 0 4294967295] := by
  refine ⟨by norm_num [instanceCount], rfl, ?_⟩
  decide

/-- Claim C3: for every flagged record, the resource-provider system performs
exactly one buffer release — present precisely when a prior buffer handle
was — strictly before exactly one buffer creation, and the created handle
replaces the record's single buffer slot, so at most one live buffer per
record remains. -/
theorem C3_release_strictly_before_create (s : ProvideState) (rec : Record) :
    (provideRecord s rec).1.events =
      (s.events ++
        (match rec.render_pipelines.bindings.vertex_attribute_buffer with
         | some b => [ResourceEvent.remove_buffer b]
         | none => [])) ++
        [ResourceEvent.create_buffer_with_data
          { size := byteLen rec.poly_line.vertices
            buffer_usage := BufferUsageVERTEX ||| BufferUsageCOPYDST
            mapped_at_creation := false }
          (vecListBytes rec.poly_line.vertices) s.next_buffer_id] ∧
    (provideRecord s rec).2.render_pipelines.bindings.vertex_attribute_buffer =
      some s.next_buffer_id := by
  exact ⟨rfl, rfl⟩

/-- Claim C5: the buffer created for a record — the last resource call its
processing makes — has byte size exactly `points.len() * 12` and is uploaded
immediately with the serialised point data, whose length equals that size;
this holds for every point list, the empty one included (no special-casing:
the release/allocate cycle of C3 covers all lists). -/
theorem C5_buffer_size_and_upload (s : ProvideState) (rec : Record) :
    ((provideRecord s rec).1.events).getLast? =
      some (ResourceEvent.create_buffer_with_data
        { size := rec.poly_line.vertices.length * 12
          buffer_usage := BufferUsageVERTEX ||| BufferUsageCOPYDST
          mapped_at_creation := false }
        (vecListBytes rec.poly_line.vertices) s.next_buffer_id) ∧
    (vecListBytes rec.poly_line.vertices).length =
      rec.poly_line.vertices.length * 12 := by
  constructor
  · have h : (provideRecord s rec).1.events =
        (s.events ++
          (match rec.render_pipelines.bindings.vertex_attribute_buffer with
           | some b => [ResourceEvent.remove_buffer b]
           | none => [])) ++
          [ResourceEvent.create_buffer_with_data
            { size := byteLen rec.poly_line.vertices
              buffer_usage := BufferUsageVERTEX ||| BufferUsageCOPYDST
              mapped_at_creation := false }
            (vecListBytes rec.poly_line.vertices) s.next_buffer_id] := rfl
    rw [h, List.getLast?_concat, byteLen]
  · rw [vecListBytes_length, byteLen]

/-- Claim C10: the resource-provider system runs for every changed record, it
never consults the visible flag (its output is the same up to that flag), and
the only record field it mutates is the vertex-attribute-buffer slot: the
point list, the visibility flag, the `Draw` command list and every pipeline
instance (sample count, vertex layout, dynamic bindings, cached generation)
are left unchanged. -/
theorem C10_provider_mutates_only_buffer_slot (s : ProvideState) (rec : Record)
    (b : Bool) (recs : List Record) :
    ((provideRecord s rec).2.poly_line = rec.poly_line ∧
     (provideRecord s rec).2.visible = rec.visible ∧
     (provideRecord s rec).2.drawCommands = rec.drawCommands ∧
     (provideRecord s rec).2.render_pipelines.pipelines =
       rec.render_pipelines.pipelines ∧
     (provideRecord s rec).2.render_pipelines.bindings =
       { rec.render_pipelines.bindings with
           vertex_attribute_buffer := some s.next_buffer_id }) ∧
    provideRecord s { rec with visible := b } =
      ((provideRecord s rec).1, { (provideRecord s rec).2 with visible := b }) ∧
    ((poly_line_resource_provider_system s recs).2).length = recs.length := by
  refine ⟨⟨rfl, rfl, rfl, rfl, rfl⟩, ?_, provider_system_length s recs⟩
  rfl

/-- Claim C4: `dynamic_bindings` is recomputed exactly when the pipeline
instance's cached `dynamic_bindings_generation` differs from the live one.
When the generations are equal, the pass changes only `sample_count` and
`vertex_buffer_layout`, leaving `dynamic_bindings` and the cached generation
untouched.  When they differ, the cached generation is set to the live one
and the new set contains every dynamic binding name of the bound resource set
plus every dynamic binding name of each asset-keyed binding set reachable
from it. -/
theorem C4_dynamic_bindings_recomputed_iff_generation_differs
    (msaaSamples : Nat) (bindings : RenderResourceBindings)
    (assets : List (Nat × List String)) (rp : RenderPipeline) :
    (rp.dynamic_bindings_generation = bindings.dynamic_bindings_generation →
      specializePipeline msaaSamples bindings assets rp =
        { rp with specialization :=
          { rp.specialization with
              sample_count := msaaSamples
              vertex_buffer_layout := polyLineVertexBufferLayout } }) ∧
    (rp.dynamic_bindings_generation ≠ bindings.dynamic_bindings_generation →
      (specializePipeline msaaSamples bindings assets rp).dynamic_bindings_generation =
        bindings.dynamic_bindings_generation ∧
      (∀ x ∈ bindings.dynamic_binding_names,
        x ∈ (specializePipeline msaaSamples bindings assets
          rp).specialization.dynamic_bindings) ∧
      (∀ a ∈ bindings.asset_handles, ∀ names, assets.lookup a = some names →
        ∀ x ∈ names,
          x ∈ (specializePipeline msaaSamples bindings assets
            rp).specialization.dynamic_bindings)) := by
  constructor
  · intro h
    simp [specializePipeline, h]
  · intro h
    refine ⟨by simp [specializePipeline, h], ?_, ?_⟩
    · intro x hx
      simp only [specializePipeline, if_pos h]
      exact mem_mergeAssetBindings_of_mem assets bindings.asset_handles _ x
        ((mem_hashSetCollect bindings.dynamic_binding_names x).mpr hx)
    · intro a ha names hl x hx
      simp only [specializePipeline, if_pos h]
      exact mem_mergeAssetBindings_of_lookup assets bindings.asset_handles _
        a names x ha hl hx

/-- Witness for C4 at concrete inputs: with equal generations (cached 5,
live 5) the dynamic bindings stay `[]`; with differing generations (cached 0,
live 5) the recomputed set contains the bound name "Transform" and the
asset-keyed name "AssetBinding", and the cached generation becomes 5. -/
theorem C4_dynamic_bindings_recomputed_iff_generation_differs_witness :
    (specializePipeline 4 bindingsC4 assetsC4 rpGenEq).specialization.dynamic_bindings =
      rpGenEq.specialization.dynamic_bindings ∧
    (specializePipeline 4 bindingsC4 assetsC4 rp0).dynamic_bindings_generation = 5 ∧
    "Transform" ∈
      (specializePipeline 4 bindingsC4 assetsC4 rp0).specialization.dynamic_bindings ∧
    "AssetBinding" ∈
      (specializePipeline 4 bindingsC4 assetsC4 rp0).specialization.dynamic_bindings := by
  have heq :=
    (C4_dynamic_bindings_recomputed_iff_generation_differs 4 bindingsC4 assetsC4
      rpGenEq).1 rfl
  have hne :=
    (C4_dynamic_bindings_recomputed_iff_generation_differs 4 bindingsC4 assetsC4
      rp0).2 (by decide)
  refine ⟨by rw [heq], hne.1, ?_, ?_⟩
  · exact hne.2.1 "Transform" (by simp [bindingsC4])
  · exact hne.2.2 11 (by simp [bindingsC4]) ["AssetBinding"] rfl "AssetBinding"
      (by simp)

/-- Claim C8: every pass of the specialization loop unconditionally
overwrites `sample_count` with the current global MSAA sample count and
`vertex_buffer_layout` with the constant descriptor — one buffer named
"PolyLine", stride 12, per-instance step mode, attribute `Instance_Point0`
(3 by 32-bit float) at byte offset 0 and attribute `Instance_Point1` at byte
offset 12 — whatever the cached state was. -/
theorem C8_sample_count_and_layout_overwritten (msaaSamples : Nat)
    (bindings : RenderResourceBindings) (assets : List (Nat × List String))
    (rp : RenderPipeline) :
    (specializePipeline msaaSamples bindings assets rp).specialization.sample_count =
      msaaSamples ∧
    (specializePipeline msaaSamples bindings assets rp).specialization.vertex_buffer_layout =
      { name := "PolyLine"
        stride := 12
        step_mode := InputStepMode.Instance
        attributes := [
          { name := "Instance_Point0", format := VertexFormat.Float32x3,
            offset := 0, shader_location := 0 },
          { name := "Instance_Point1", format := VertexFormat.Float32x3,
            offset := 12, shader_location := 1 }] } := by
  by_cases h : rp.dynamic_bindings_generation = bindings.dynamic_bindings_generation <;>
    simp [specializePipeline, h, polyLineVertexBufferLayout]

/-- Claim C9: a record whose visible flag is false is skipped whole by the
draw-submission system: no specialization, no binding, no draw call, and the
record — its pipeline-instance state included — is returned unchanged,
whatever its buffer state and whatever the operation outcomes would be. -/
theorem C9_invisible_record_untouched (env : DrawEnv) (msaaSamples : Nat)
    (assets : List (Nat × List String)) (globalBindings : RenderResourceBindings)
    (rec : Record) (hvis : rec.visible = false) :
    processRecord env msaaSamples assets globalBindings rec = Except.ok rec := by
  simp [processRecord, hvis]

/-- Witness for C9: the concrete invisible record is returned unchanged even
in the environment where every operation would fail. -/
theorem C9_invisible_record_untouched_witness :
    recInvisible.visible = false ∧
    processRecord envPipelineFail 4 [] gb0 recInvisible = Except.ok recInvisible :=
  ⟨rfl, C9_invisible_record_untouched envPipelineFail 4 [] gb0 recInvisible rfl⟩

/-- Claim C2 counterexample: the claim says a failing binding/pipeline
operation aborts only that record's draw and is never propagated to abort
the whole frame.  In the code every such operation is followed by
`.unwrap()` (src/lib.rs:149-161): at this concrete input — two visible
two-or-three-point records in an environment where `set_pipeline` fails —
the whole system run panics (`Except.error`), the second record included,
instead of skipping the first record and continuing. -/
theorem C2_counterexample_unwrap_aborts_whole_frame :
    poly_line_draw_render_pipelines_system envPipelineFail 4 [] gb0
      [recTwoPts, recThreePts] = Except.error () := by
  rfl

/-- Claim C2 as amended: a binding/pipeline-setting operation failing for a
record is not caught at the record boundary — the `.unwrap()` panics,
aborting the entire system run for the frame, whatever records remain. -/
theorem C2_amended_failure_panics_whole_frame (env : DrawEnv)
    (msaaSamples : Nat) (assets : List (Nat × List String))
    (globalBindings : RenderResourceBindings) (rec : Record)
    (rest : List Record) (e : Unit)
    (h : processRecord env msaaSamples assets globalBindings rec =
      Except.error e) :
    poly_line_draw_render_pipelines_system env msaaSamples assets
      globalBindings (rec :: rest) = Except.error e := by
  simp [poly_line_draw_render_pipelines_system, h]

/-- Witness for the amended C2: the single three-point record whose
`set_pipeline` fails aborts the system run. -/
theorem C2_amended_failure_panics_whole_frame_witness :
    poly_line_draw_render_pipelines_system envPipelineFail 4 [] gb0
      [recThreePts] = Except.error () :=
  C2_amended_failure_panics_whole_frame envPipelineFail 4 [] gb0 recThreePts
    [] () rfl

/-- Claim C6 counterexample: the claim says a record that retains no GPU
buffer is skipped by the draw-submission loop, with no draw call issued for
it that frame.  At this concrete input — a visible two-point record whose
`vertex_attribute_buffer` is `none`, with every operation succeeding — the
loop still issues its draw call (`draw.draw(0..6, 0..1)`); nothing in
src/lib.rs:144-166 consults buffer presence. -/
theorem C6_counterexample_bufferless_record_still_drawn :
    recNoBuf.render_pipelines.bindings.vertex_attribute_buffer = none ∧
    recNoBuf.visible = true ∧
    draws (processRecord envAllOk 4 [] gb0 recNoBuf) =
      [DrawCommand.draw 0 6 0 1] := by
  refine ⟨rfl, rfl, ?_⟩
  decide

/-- Claim C6 as amended: the draw-submission loop never consults buffer
presence.  A visible record holding no GPU buffer, in a frame where the
binding operations succeed, still runs the full per-pipeline command
sequence — pipeline, bind groups, a vertex-buffer binding that binds nothing
(`none`), and the draw call. -/
theorem C6_amended_bufferless_record_not_skipped (env : DrawEnv)
    (msaaSamples : Nat) (assets : List (Nat × List String))
    (globalBindings : RenderResourceBindings) (rec : Record)
    (hvis : rec.visible = true)
    (hbuf : rec.render_pipelines.bindings.vertex_attribute_buffer = none)
    (hp : ∀ p s, env.setPipelineOk p s = true)
    (hb : ∀ b g, env.setBindGroupsOk b g = true)
    (hv : ∀ o, env.setVertexBuffersOk o = true) :
    processRecord env msaaSamples assets globalBindings rec =
      Except.ok { rec with
        render_pipelines := { rec.render_pipelines with
          pipelines := rec.render_pipelines.pipelines.map
            (specializePipeline msaaSamples rec.render_pipelines.bindings assets) }
        drawCommands := rec.drawCommands ++
          ((rec.render_pipelines.pipelines.map
              (specializePipeline msaaSamples rec.render_pipelines.bindings
                assets)).map
            (pipelineCommands none
              (instanceCount rec.poly_line.vertices.length))).flatten } := by
  rw [processRecord_visible_allOk env msaaSamples assets globalBindings rec
    hvis hp hb hv, hbuf]

/-- Witness for the amended C6: the concrete bufferless record goes through
the full command sequence, its draw call included. -/
theorem C6_amended_bufferless_record_not_skipped_witness :
    processRecord envAllOk 4 [] gb0 recNoBuf =
      Except.ok { recNoBuf with
        render_pipelines := { recNoBuf.render_pipelines with
          pipelines := recNoBuf.render_pipelines.pipelines.map
            (specializePipeline 4 recNoBuf.render_pipelines.bindings []) }
        drawCommands := recNoBuf.drawCommands ++
          ((recNoBuf.render_pipelines.pipelines.map
              (specializePipeline 4 recNoBuf.render_pipelines.bindings [])).map
            (pipelineCommands none
              (instanceCount recNoBuf.poly_line.vertices.length))).flatten } :=
  C6_amended_bufferless_record_not_skipped envAllOk 4 [] gb0 recNoBuf rfl rfl
    (fun _ _ => rfl) (fun _ _ => rfl) (fun _ => rfl)

theorem instanceCount_two_pow_32_succ : instanceCount (2 ^ 32 + 1) = 0 := by
  norm_num [instanceCount]

/-- Claim C7 counterexample: the claim promises an instance count of exactly
`N - 1` for every visible record with `N ≥ 2` points.  The code truncates
the `usize` difference to `u32` (`as u32`, src/lib.rs:165): at this concrete
input — a visible record of `2^32 + 1` points with every operation
succeeding — the issued draw call carries instance count 0, not
`N - 1 = 2^32`. -/
theorem C7_counterexample_u32_truncation :
    recBig.visible = true ∧
    recBig.poly_line.vertices.length = 2 ^ 32 + 1 ∧
    draws (processRecord envAllOk 4 [] gb0 recBig) =
      [DrawCommand.draw 0 6 0 0] ∧
    (0 : Nat) ≠ 2 ^ 32 + 1 - 1 := by
  have hlen : recBig.poly_line.vertices.length = 2 ^ 32 + 1 := by
    show (List.replicate (2 ^ 32 + 1) vZero).length = 2 ^ 32 + 1
    exact List.length_replicate _ _
  refine ⟨rfl, hlen, ?_, by norm_num⟩
  rw [processRecord_visible_allOk envAllOk 4 [] gb0 recBig rfl
    (fun _ _ => rfl) (fun _ _ => rfl) (fun _ => rfl)]
  simp only [draws, List.filter_append]
  rw [filter_isDraw_pipelineCommands, hlen, instanceCount_two_pow_32_succ]
  rfl

/-- Claim C7 as amended: for every visible record with `2 ≤ N ≤ 2^32` points
whose binding operations succeed, the loop issues exactly one draw call per
attached pipeline instance, each with the fixed vertex range `0..6` and
instance count exactly `N - 1` (beyond `2^32` points the `as u32` cast
truncates the count). -/
theorem C7_amended_one_draw_per_pipeline (env : DrawEnv) (msaaSamples : Nat)
    (assets : List (Nat × List String)) (globalBindings : RenderResourceBindings)
    (rec : Record) (hvis : rec.visible = true)
    (h2 : 2 ≤ rec.poly_line.vertices.length)
    (h32 : rec.poly_line.vertices.length ≤ 2 ^ 32)
    (hp : ∀ p s, env.setPipelineOk p s = true)
    (hb : ∀ b g, env.setBindGroupsOk b g = true)
    (hv : ∀ o, env.setVertexBuffersOk o = true) :
    draws (processRecord env msaaSamples assets globalBindings rec) =
      rec.drawCommands.filter isDraw ++
        rec.render_pipelines.pipelines.map
          (fun _ => DrawCommand.draw 0 6 0
            (rec.poly_line.vertices.length - 1)) := by
  rw [processRecord_visible_allOk env msaaSamples assets globalBindings rec
    hvis hp hb hv]
  simp only [draws, List.filter_append]
  rw [filter_isDraw_pipelineCommands, instanceCount_sub_one
    rec.poly_line.vertices.length (le_trans (by norm_num) h2) h32]
  simp only [List.map_map]
  rfl

/-- Witness for the amended C7: the concrete visible three-point record with
one pipeline instance yields exactly one draw call, `0..6` vertices and
2 instances. -/
theorem C7_amended_one_draw_per_pipeline_witness :
    draws (processRecord envAllOk 4 [] gb0 recThreePts) =
      [DrawCommand.draw 0 6 0 2] := by
  have h := C7_amended_one_draw_per_pipeline envAllOk 4 [] gb0 recThreePts
    rfl (by decide) (by decide) (fun _ _ => rfl) (fun _ _ => rfl)
    (fun _ => rfl)
  simpa [recThreePts, mkRec, isDraw] using h

end BevyPolyline
